import Mathlib

/-!
Shallow embedding of the XBee AT-command codec (src/ATCommands.py) and the
frame reader (src/xbee.py).

Bytes on the wire are modelled as `Nat` (each actual wire byte is < 256); a
byte buffer is a `List Nat`.  Python code that returns `None` on failure is
modelled with `Option`; Python code that can raise an uncaught exception is
modelled with `Except`.
-/

/-- Big-endian encoding of `v` into `w` bytes, as performed by
`struct.pack` with formats `>B` / `>H` / `>I` (for `w` = 1, 2, 4). -/
def beBytes : Nat → Nat → List Nat
  | 0, _ => []
  | w + 1, v => beBytes w (v / 256) ++ [v % 256]

/-- Big-endian decoding of a byte buffer, as performed by `struct.unpack`
with formats `>B` / `>H` / `>I` applied to a buffer of the matching size. -/
def beDecode (bs : List Nat) : Nat :=
  bs.foldl (fun a b => a * 256 + b) 0

/-- The `2s` field of `struct.Struct(">2sI")`: a string rendered as exactly
two bytes (ASCII codes), NUL-padded / truncated to length 2. -/
def pack2s (s : String) : List Nat :=
  (s.toList.map Char.toNat ++ [0, 0]).take 2

/-- An `ATCommand` instance (class `ATCommand` in src/ATCommands.py):
`command` is the two-letter code, `param` is `None` when querying a
register (`none` here) or the value to store, and the remaining fields are
static per-variant metadata. -/
structure ATCommand where
  command : String
  param : Option Nat
  name : String
  category : String
  descr : String
deriving DecidableEq

/-- Static field `ATCommandDH.command`. -/
def ATCommandDH.command : String := "DH"

/-- Static field `ATCommandDH.name`. -/
def ATCommandDH.name : String := "Destination Address High"

/-- Static field `ATCommandDH.category`. -/
def ATCommandDH.category : String := "Addressing"

/-- Static field `ATCommandDH.description`. -/
def ATCommandDH.description : String :=
  "Set/Get the upper 32 bits of the 64-bit destination address. When combined with DL, it defines the 64-bit destination address for data transmission. Special definitions for DH and DL include 0x000000000000FFFF (broadcast) and 0x0000000000000000 (coordinator)."

/-- The `ATCommandDH.__init__` constructor: stores the class statics and the
given `param` on the instance. -/
def ATCommandDH.mk (param : Option Nat) : ATCommand :=
  ⟨ATCommandDH.command, param, ATCommandDH.name, ATCommandDH.category,
   ATCommandDH.description⟩

/-- Static field `ATCommandDL.command`. -/
def ATCommandDL.command : String := "DL"

/-- Static field `ATCommandDL.name`. -/
def ATCommandDL.name : String := "Destination Address Low"

/-- Static field `ATCommandDL.category`. -/
def ATCommandDL.category : String := "Addressing"

/-- Static field `ATCommandDL.description`. -/
def ATCommandDL.description : String :=
  "Set/Get the lower 32 bits of the 64-bit destination address. When combined with DH, it defines the 64-bit destination address for data transmissions. Special definitions for DH and DL include 0x000000000000FFFF (broadcast) and 0x0000000000000000 (coordinator)."

/-- The `ATCommandDL.__init__` constructor. -/
def ATCommandDL.mk (param : Option Nat) : ATCommand :=
  ⟨ATCommandDL.command, param, ATCommandDL.name, ATCommandDL.category,
   ATCommandDL.description⟩

/-- The packer `struct.Struct(">2sI").pack(command, param)`, shared verbatim
by `ATCommandDH.pack` and `ATCommandDL.pack`: two ASCII code bytes followed
by the parameter as a 4-byte big-endian unsigned integer.  `struct.pack`
raises `struct.error` when `param` is `None` or is not in `[0, 2^32)`;
that failure is modelled as `none`. -/
def packer2sI (command : String) (param : Option Nat) : Option (List Nat) :=
  match param with
  | some v => if v < 2 ^ 32 then some (pack2s command ++ beBytes 4 v) else none
  | none => none

/-- Method `pack` as implemented by both registered variants
(`ATCommandDH.pack` and `ATCommandDL.pack`):
`return ATCommandXX.packer.pack(self.command, self.param)`. -/
def ATCommand.pack (c : ATCommand) : Option (List Nat) :=
  packer2sI c.command c.param

/-- The module-level catalog dictionary `ATCommands`:
only `"DH"` and `"DL"` are registered (src/ATCommands.py lines 175-179);
`ATCommandSH` and `ATCommandSL` are defined but never entered. -/
def ATCommands : List (String × (Option Nat → ATCommand)) :=
  [("DH", ATCommandDH.mk), ("DL", ATCommandDL.mk)]

/-- Factory `make_command(cmd, param)`: `if ATCommands.has_key(cmd): return
ATCommands[cmd](param) else: return None`. -/
def make_command (cmd : String) (param : Option Nat) : Option ATCommand :=
  match List.lookup cmd ATCommands with
  | some ctor => some (ctor param)
  | none => none

/-- The one uncaught Python exception `parse_command` can raise: when
`paramsz` matches none of 1, 2, 4, the local `param` is never assigned and
the final `ATCommands[cmd](param)` raises `UnboundLocalError`. -/
inductive PyExn where
  | unboundLocalParam
deriving DecidableEq

/-- Function `parse_command(cmd, payload)`: for a registered `cmd`, computes
`paramsz = len(payload) - 4` (frame type + frame id + 2 code bytes), decodes
a big-endian parameter of width 1, 2 or 4 from offset 4 with the class's
pre-compiled `unpacker1`/`unpacker2`/`unpacker4`, and constructs the
command; for any other width the local `param` stays unbound and the
constructor call raises (`Except.error`).  For an unregistered `cmd` it
returns `None` (`Except.ok none`). -/
def parse_command (cmd : String) (payload : List Nat) :
    Except PyExn (Option ATCommand) :=
  match List.lookup cmd ATCommands with
  | some ctor =>
      let paramsz : Int := (payload.length : Int) - 4
      if paramsz = 1 ∨ paramsz = 2 ∨ paramsz = 4 then
        Except.ok (some (ctor (some (beDecode (payload.drop 4)))))
      else
        Except.error PyExn.unboundLocalParam
  | none => Except.ok none

/-- Method `XBee.read_frame` (src/xbee.py): reads 3 header bytes, unpacks them with
`struct.Struct(">BH")` into `SOM` (never used again) and a big-endian
2-byte size `sz`, reads `sz` payload bytes, reads 1 checksum byte, takes
`payload[0]` as the frame type (an `IndexError` on an empty payload is a
failure) and dispatches to `ZigBeeAPIFrames[frametype](payload, chksum)`
(a `KeyError` on an unregistered frame type is a failure).  The byte source
`self.cxn` is modelled as a list consumed front-first; a read that the
stream cannot satisfy is a failure.  `ZigBeeAPIFrames` comes from the
`zigbee` module, which is not part of the sources here, so it is passed
as a parameter.  Returns the dispatch result and the unconsumed stream. -/
def read_frame {α : Type} (ZigBeeAPIFrames : Nat → Option (List Nat → Nat → α))
    (stream : List Nat) : Option (α × List Nat) :=
  match stream with
  | _SOM :: szhi :: szlo :: rest =>
      let sz := 256 * szhi + szlo
      if sz ≤ rest.length then
        let payload := rest.take sz
        match rest.drop sz with
        | chksum :: remaining =>
            match payload with
            | [] => none
            | frametype :: _ =>
                match ZigBeeAPIFrames frametype with
                | some fr => some (fr payload chksum, remaining)
                | none => none
        | [] => none
      else none
  | _ => none

/-- Modelled from the spec: the checksum function used by the frame layer,
`checksum(payload) = 0xFF - (sum(payload) mod 256)`.  The code computing it
lives in zigbee.py, which is not among the sources; only its caller
`XBee.read_frame` is. -/
def checksum (payload : List Nat) : Nat :=
  0xFF - payload.sum % 0x100

/-- Modelled from the spec: the frame constructors registered in
`ZigBeeAPIFrames` (zigbee.py, not among the sources) recompute the checksum
over the payload and reject the frame (`ChecksumMismatchError`, modelled as
`none`) when the received trailing byte disagrees; otherwise they hand the
payload on to the frame-specific interpretation. -/
def checked_frame_handler {α : Type} (fr : List Nat → Nat → α)
    (payload : List Nat) (chksum : Nat) : Option α :=
  if checksum payload = chksum then some (fr payload chksum) else none

/-! ### Helper lemmas -/

theorem beBytes_length (w v : Nat) : (beBytes w v).length = w := by
  induction w generalizing v with
  | zero => rfl
  | succ w ih => simp [beBytes, ih]

theorem beDecode_append_one (xs : List Nat) (b : Nat) :
    beDecode (xs ++ [b]) = beDecode xs * 256 + b := by
  simp [beDecode, List.foldl_append]

theorem beDecode_beBytes (w v : Nat) : beDecode (beBytes w v) = v % 256 ^ w := by
  induction w generalizing v with
  | zero => simp [beBytes, beDecode, Nat.mod_one]
  | succ w ih =>
      rw [beBytes, beDecode_append_one, ih, pow_succ, mul_comm (256 ^ w) 256,
        Nat.mod_mul]
      ring

theorem lookup_ATCommands_cases (cmd : String) (ctor : Option Nat → ATCommand)
    (h : List.lookup cmd ATCommands = some ctor) :
    (cmd = "DH" ∧ ctor = ATCommandDH.mk) ∨ (cmd = "DL" ∧ ctor = ATCommandDL.mk) := by
  by_cases h1 : cmd = "DH"
  · subst h1
    simp [ATCommands, List.lookup] at h
    exact Or.inl ⟨rfl, h.symm⟩
  · by_cases h2 : cmd = "DL"
    · subst h2
      simp [ATCommands, List.lookup] at h
      exact Or.inr ⟨rfl, h.symm⟩
    · have e1 : (cmd == "DH") = false := beq_eq_false_iff_ne.mpr h1
      have e2 : (cmd == "DL") = false := beq_eq_false_iff_ne.mpr h2
      simp [ATCommands, List.lookup, e1, e2] at h

theorem sum_set_add (l : List Nat) (i : Nat) (b : Nat) (hi : i < l.length) :
    (l.set i b).sum + l.get ⟨i, hi⟩ = l.sum + b := by
  induction l generalizing i with
  | nil => simp at hi
  | cons a t ih =>
      cases i with
      | zero => simp [List.set, List.sum_cons]; omega
      | succ j =>
          have hj : j < t.length := by simpa using hi
          have := ih j hj
          simp only [List.get_eq_getElem] at this
          simp [List.set, List.sum_cons, List.get]
          omega

/-! ### Claim theorems -/

/-- C3: for every code string not registered in the catalog (for example
"ZZ") and any parameter, `make_command` fails (the mode of failure in the
source is the returned `None`, which the spec names `UnknownCommandError`),
and the catalog lookup for that code returns the absent marker. -/
theorem make_command_unknown_code_fails :
    (∀ (cmd : String) (param : Option Nat),
        List.lookup cmd ATCommands = none → make_command cmd param = none) ∧
    List.lookup "ZZ" ATCommands = none := by
  constructor
  · intro cmd param h
    simp [make_command, h]
  · rfl

/-- Witness for C3 at the concrete code "ZZ". -/
theorem make_command_unknown_code_fails_witness :
    make_command "ZZ" none = none :=
  make_command_unknown_code_fails.1 "ZZ" none make_command_unknown_code_fails.2

/-- C4 (failing input of the code bug): a DH command constructed in the
documented query form (`param = None`) cannot be packed: `pack` raises
`struct.error` (modelled `none`) instead of emitting the two code bytes. -/
theorem pack_absent_param_crashes :
    ∃ c, make_command "DH" none = some c ∧ c.param = none ∧
      ATCommand.pack c = none :=
  ⟨ATCommandDH.mk none, rfl, rfl, rfl⟩

/-- C5 (counterexample): the code "SH" is not registered in the catalog:
lookup returns the absent marker and `make_command` fails. -/
theorem catalog_SH_not_registered :
    List.lookup "SH" ATCommands = none ∧ make_command "SH" (some 0) = none :=
  ⟨rfl, rfl⟩

/-- C5 (amended): exactly the codes "DH" and "DL" are registered in the
catalog — for each of them lookup returns a constructor and `make_command`
returns a fully formed command — while "SH" and "SL" are not registered:
lookup returns the absent marker and `make_command` fails. -/
theorem catalog_registered_codes :
    (∀ param, make_command "DH" param = some (ATCommandDH.mk param)) ∧
    (∀ param, make_command "DL" param = some (ATCommandDL.mk param)) ∧
    (List.lookup "DH" ATCommands).isSome = true ∧
    (List.lookup "DL" ATCommands).isSome = true ∧
    List.lookup "SH" ATCommands = none ∧
    List.lookup "SL" ATCommands = none ∧
    (∀ param, make_command "SH" param = none) ∧
    (∀ param, make_command "SL" param = none) :=
  ⟨fun _ => rfl, fun _ => rfl, rfl, rfl, rfl, rfl, fun _ => rfl, fun _ => rfl⟩

/-- C7: `make_command "DH" 0x0000FFFF` packs to exactly the six bytes
`44 48 00 00 FF FF` — ASCII "DH" followed by the 4-byte big-endian
parameter. -/
theorem make_DH_FFFF_pack_bytes :
    ∃ c, make_command "DH" (some 0xFFFF) = some c ∧
      ATCommand.pack c = some [0x44, 0x48, 0x00, 0x00, 0xFF, 0xFF] := by
  refine ⟨ATCommandDH.mk (some 0xFFFF), rfl, ?_⟩
  decide

/-- C10: `read_frame` never validates the start-of-message byte — two input
streams that differ only in their first byte are processed identically
(same dispatch, same result), for every frame-type registry. -/
theorem read_frame_ignores_SOM {α : Type}
    (ZigBeeAPIFrames : Nat → Option (List Nat → Nat → α))
    (b b' : Nat) (s : List Nat) :
    read_frame ZigBeeAPIFrames (b :: s) = read_frame ZigBeeAPIFrames (b' :: s) := by
  cases s with
  | nil => rfl
  | cons x t =>
      cases t with
      | nil => rfl
      | cons y u => rfl

/-- C2: for every registered code and every payload whose length minus the
4-byte header offset is not 1, 2 or 4, `parse_command` fails (the
`UnsupportedPayloadWidthError` of the spec; in the source the failure is an
uncaught `UnboundLocalError` on the never-assigned `param`) and in
particular never silently truncates or zero-pads the parameter. -/
theorem parse_command_bad_width_fails (cmd : String)
    (ctor : Option Nat → ATCommand)
    (hc : List.lookup cmd ATCommands = some ctor) (payload : List Nat)
    (h1 : (payload.length : Int) - 4 ≠ 1)
    (h2 : (payload.length : Int) - 4 ≠ 2)
    (h4 : (payload.length : Int) - 4 ≠ 4) :
    parse_command cmd payload = Except.error PyExn.unboundLocalParam := by
  simp [parse_command, hc, h1, h2, h4]

/-- Witness for C2: a 7-byte payload (parameter width 3) makes
`parse_command "DH"` fail. -/
theorem parse_command_bad_width_fails_witness :
    parse_command "DH" [0, 0, 0, 0, 0, 0, 0] =
      Except.error PyExn.unboundLocalParam :=
  parse_command_bad_width_fails "DH" ATCommandDH.mk rfl [0, 0, 0, 0, 0, 0, 0]
    (by decide) (by decide) (by decide)

/-- C1: for every command code registered in the catalog and every
parameter representable in the fixed 4-byte width, packing the command and
parsing the resulting payload (frame-type byte, frame-id byte, then the
packed bytes) with `parse_command` reconstructs a command whose code and
parameter equal the original's. -/
theorem roundtrip_pack_parse_command (cmd : String)
    (ctor : Option Nat → ATCommand)
    (hc : List.lookup cmd ATCommands = some ctor)
    (v : Nat) (hv : v < 2 ^ 32) (ft fid : Nat) :
    ∃ c pb c2, make_command cmd (some v) = some c ∧
      ATCommand.pack c = some pb ∧
      parse_command cmd (ft :: fid :: pb) = Except.ok (some c2) ∧
      c2.command = c.command ∧ c2.param = c.param := by
  have hv' : v < 4294967296 := by
    norm_num at hv
    exact hv
  have hmod : v % 4294967296 = v := Nat.mod_eq_of_lt hv'
  rcases lookup_ATCommands_cases cmd ctor hc with ⟨hcmd, hctor⟩ | ⟨hcmd, hctor⟩
  · subst hcmd; subst hctor
    refine ⟨ATCommandDH.mk (some v), pack2s "DH" ++ beBytes 4 v,
      ATCommandDH.mk (some v), rfl, ?_, ?_, rfl, rfl⟩
    · simp [ATCommand.pack, ATCommandDH.mk, packer2sI]
      exact ⟨hv', rfl⟩
    · have hlen : (ft :: fid :: (pack2s "DH" ++ beBytes 4 v)).length = 8 := by
        simp [pack2s, beBytes_length]
      have hdrop : (ft :: fid :: (pack2s "DH" ++ beBytes 4 v)).drop 4 =
          beBytes 4 v := rfl
      simp [parse_command, ATCommands, List.lookup, hlen, hdrop,
        beDecode_beBytes, hmod]
  · subst hcmd; subst hctor
    refine ⟨ATCommandDL.mk (some v), pack2s "DL" ++ beBytes 4 v,
      ATCommandDL.mk (some v), rfl, ?_, ?_, rfl, rfl⟩
    · simp [ATCommand.pack, ATCommandDL.mk, packer2sI]
      exact ⟨hv', rfl⟩
    · have hlen : (ft :: fid :: (pack2s "DL" ++ beBytes 4 v)).length = 8 := by
        simp [pack2s, beBytes_length]
      have hdrop : (ft :: fid :: (pack2s "DL" ++ beBytes 4 v)).drop 4 =
          beBytes 4 v := rfl
      simp [parse_command, ATCommands, List.lookup, hlen, hdrop,
        beDecode_beBytes, hmod]

/-- Witness for C1 at code "DH", parameter 0x12345678, frame type 8,
frame id 1. -/
theorem roundtrip_pack_parse_command_witness :
    ∃ c pb c2, make_command "DH" (some 0x12345678) = some c ∧
      ATCommand.pack c = some pb ∧
      parse_command "DH" (8 :: 1 :: pb) = Except.ok (some c2) ∧
      c2.command = c.command ∧ c2.param = c.param :=
  roundtrip_pack_parse_command "DH" ATCommandDH.mk rfl 0x12345678
    (by decide) 8 1

/-- C9: `parse_command` never checks the command-code bytes embedded in the
payload against its `cmd` argument: for every registered `cmd` and every
payload whose length minus 4 is 1, 2 or 4, the result carries the code of
the `cmd` argument and the parameter decoded big-endian from `payload[4:]`,
whatever the first four payload bytes are. -/
theorem parse_command_ignores_code_bytes (cmd : String)
    (ctor : Option Nat → ATCommand)
    (hc : List.lookup cmd ATCommands = some ctor)
    (a b c d : Nat) (tail : List Nat)
    (hw : tail.length = 1 ∨ tail.length = 2 ∨ tail.length = 4) :
    parse_command cmd (a :: b :: c :: d :: tail) =
      Except.ok (some (ctor (some (beDecode tail)))) ∧
    (ctor (some (beDecode tail))).command = cmd := by
  constructor
  · have hdrop : (a :: b :: c :: d :: tail).drop 4 = tail := rfl
    simp [parse_command, hc, hdrop]
    intro h1 h2
    rcases hw with h | h | h <;> omega
  · rcases lookup_ATCommands_cases cmd ctor hc with ⟨hcmd, hctor⟩ | ⟨hcmd, hctor⟩ <;>
      subst hcmd <;> subst hctor <;> rfl

/-- Witness for C9: parsing with `cmd = "DH"` a payload whose embedded code
bytes spell "SH" (0x53 0x48) still yields a DH command, with the 4-byte
parameter 0xAABBCCDD decoded from the tail. -/
theorem parse_command_ignores_code_bytes_witness :
    parse_command "DH" [0x08, 0x01, 0x53, 0x48, 0xAA, 0xBB, 0xCC, 0xDD] =
      Except.ok (some (ATCommandDH.mk (some (beDecode [0xAA, 0xBB, 0xCC, 0xDD])))) ∧
    (ATCommandDH.mk (some (beDecode [0xAA, 0xBB, 0xCC, 0xDD]))).command = "DH" :=
  parse_command_ignores_code_bytes "DH" ATCommandDH.mk rfl 0x08 0x01 0x53 0x48
    [0xAA, 0xBB, 0xCC, 0xDD] (by decide)

/-- C6 (checksum layer modelled from the spec): a received frame whose
trailing checksum byte disagrees with `0xFF - (sum(payload) mod 256)` is
rejected, and in particular every single-byte corruption of the payload
(bytes being values below 256) is rejected against the original frame's
checksum byte. -/
theorem frame_checksum_rejects_mismatch {α : Type} (fr : List Nat → Nat → α) :
    (∀ (payload : List Nat) (chk : Nat), chk ≠ checksum payload →
        checked_frame_handler fr payload chk = none) ∧
    (∀ (p : List Nat) (i : Nat) (hi : i < p.length) (b : Nat),
        b < 256 → p.get ⟨i, hi⟩ < 256 → b ≠ p.get ⟨i, hi⟩ →
        checked_frame_handler fr (p.set i b) (checksum p) = none) := by
  have reject : ∀ (payload : List Nat) (chk : Nat), chk ≠ checksum payload →
      checked_frame_handler fr payload chk = none := by
    intro payload chk hne
    rw [checked_frame_handler, if_neg (fun h => hne h.symm)]
  refine ⟨reject, ?_⟩
  intro p i hi b hb hp hne
  have hsum := sum_set_add p i b hi
  apply reject
  intro h
  rw [checksum, checksum] at h
  omega

/-- Witness for C6: corrupting byte 0 of the payload `08 01 44 48` from
0x08 to 0x09 while keeping the original checksum byte makes the frame
handler reject the frame. -/
theorem frame_checksum_rejects_mismatch_witness :
    checked_frame_handler (fun p c => p.sum + c) ([8, 1, 68, 72].set 0 9)
      (checksum [8, 1, 68, 72]) = none :=
  (frame_checksum_rejects_mismatch (fun p c => p.sum + c)).2 [8, 1, 68, 72] 0
    (by decide) 9 (by decide) (by decide) (by decide)

/-- C8: `read_frame` consumes its byte source in exactly this order — 3
header bytes read as a 1-byte SOM and a 2-byte big-endian length, then
exactly `length` payload bytes, then exactly 1 checksum byte — and then
dispatches to the frame-type registry entry keyed by `payload[0]`, leaving
the rest of the source unconsumed. -/
theorem read_frame_consumption_order {α : Type}
    (ZigBeeAPIFrames : Nat → Option (List Nat → Nat → α))
    (som szhi szlo ft chk : Nat) (ptail rest : List Nat)
    (fr : List Nat → Nat → α)
    (hlen : (ft :: ptail).length = 256 * szhi + szlo)
    (hreg : ZigBeeAPIFrames ft = some fr) :
    read_frame ZigBeeAPIFrames
        (som :: szhi :: szlo :: ((ft :: ptail) ++ chk :: rest)) =
      some (fr (ft :: ptail) chk, rest) := by
  have hle : 256 * szhi + szlo ≤ ((ft :: ptail) ++ chk :: rest).length := by
    rw [← hlen]
    simp
  have htake : ((ft :: ptail) ++ chk :: rest).take (256 * szhi + szlo) =
      ft :: ptail := by
    rw [← hlen]
    exact List.take_left _ _
  have hdrop : ((ft :: ptail) ++ chk :: rest).drop (256 * szhi + szlo) =
      chk :: rest := by
    rw [← hlen]
    exact List.drop_left _ _
  simp only [read_frame]
  rw [if_pos hle]
  simp only [hdrop, htake, hreg]

/-- Witness for C8 on the concrete source `7E 00 02 88 05 07 03 04`:
SOM 0x7E, length 2, payload `88 05`, checksum byte 0x07, two trailing
bytes left unread; the registry entry for frame type 0x88 receives the
payload and the checksum byte. -/
theorem read_frame_consumption_order_witness :
    read_frame
        (fun t => if t = 0x88 then some (fun p c => beDecode p + c) else none)
        [0x7E, 0x00, 0x02, 0x88, 0x05, 0x07, 0x03, 0x04] =
      some (34828, [3, 4]) := by
  have h := read_frame_consumption_order
      (fun t => if t = 0x88 then some (fun p c => beDecode p + c) else none)
      0x7E 0x00 0x02 0x88 0x07 [0x05] [0x03, 0x04]
      (fun p c => beDecode p + c) (by decide) rfl
  simpa using h
